import Mathlib

/-!
A shallow embedding of the duplicate-message detector bot in `src/bot.py`
(class `DuplicateDetectorBot`).  The in-memory store `self.group_messages`
(a dict from chat id to a dict from comparison key to a list of sighting
records), the SQLite backup table `messages`, startup rehydration
(`load_from_database`), and the message handler (`detect_duplicate`) are
translated into executable Lean definitions.

Modelling conventions, stated once here:

* Timestamps.  The code stores wall-clock times as second-precision strings
  rendered by `strftime` from the Asia/Jakarta clock (UTC+7, no DST) and
  parses them back with `strptime`; this rendering is a strictly monotone
  bijection onto second-precision instants, and subtraction of parsed values
  equals subtraction of the underlying seconds.  We therefore represent a
  stored timestamp by its value in seconds.  `format_time_for_db` stamps the
  Jakarta wall clock, i.e. UTC epoch seconds plus 25200; SQLite's
  `datetime("now", "-30 days")` renders the UTC clock minus 30 days, and
  SQLite compares the two strings lexicographically, which on this common
  format agrees with comparison of the underlying seconds.
* `hashlib.md5(...).hexdigest()` of the whitespace-collapsed lowercased text
  is modelled by that normalized text itself: an injective stand-in for the
  hex digest, which the code only ever compares for equality (in the
  `UNIQUE(chat_id, message_hash, timestamp)` constraint).
* Python `dict`s are modelled as insertion-ordered association lists;
  Python lists as Lean lists.
* `str.lower` is modelled on the ASCII case mapping (`Char.toLower`), where
  it agrees with Python; `str.strip` and `str.split` use the ASCII
  whitespace characters Python recognises.
* `format_time_display` re-renders the stored second-precision timestamp in
  another calendar format; it is injective and order-preserving, and no
  property here depends on the concrete date syntax, so we model it by the
  decimal rendering of the stored seconds.
-/

/-- Python whitespace characters (ASCII subset), as used by `str.strip` and
`str.split`. -/
def isPyWs (c : Char) : Bool :=
  c = ' ' || c = '\t' || c = '\n' || c = '\r' || c = '\x0b' || c = '\x0c'

/-- `str.strip()`: drop leading and trailing whitespace. -/
def pyStrip (s : String) : String :=
  String.mk (((s.data.dropWhile isPyWs).reverse.dropWhile isPyWs).reverse)

/-- `str.lower()` (ASCII case mapping), applied to every character. -/
def pyLower (s : String) : String :=
  String.mk (s.data.map Char.toLower)

/-- Helper for `str.split()`: split on whitespace runs, dropping empties. -/
def splitWsAux : List Char → List Char → List String
  | [], [] => []
  | [], acc => [String.mk acc.reverse]
  | c :: cs, acc =>
    if isPyWs c then
      if acc.isEmpty then splitWsAux cs []
      else String.mk acc.reverse :: splitWsAux cs []
    else splitWsAux cs (c :: acc)

/-- `str.split()` with no separator argument. -/
def pySplit (s : String) : List String :=
  splitWsAux s.data []

/-- `generate_message_hash` (bot.py:151): whitespace-collapse the lowercased
text; the md5 hex digest of the result is modelled by the result itself. -/
def generateMessageHash (text : String) : String :=
  String.intercalate " " (pySplit (pyLower text))

/-- The comparison key of `detect_duplicate`: `update.message.text.strip()`
then `.lower()` (bot.py:163-164). -/
def messageKey (raw : String) : String :=
  pyLower (pyStrip raw)

/-- Asia/Jakarta is UTC+7: offset in seconds between the Jakarta wall clock
used by `format_time_for_db` and the UTC clock used by SQLite `datetime`. -/
def jakartaOffset : Nat := 25200

/-- Thirty days in seconds, the `-30 days` modifier of the pruning DELETE. -/
def thirtyDays : Nat := 2592000

/-- One element of a per-key history list in `self.group_messages`.
`original_text` is present on entries created by `detect_duplicate` and
absent on entries created by `load_from_database` (bot.py:102-105). -/
structure Entry where
  user : String
  time : Nat
  originalText : Option String
deriving DecidableEq, Repr

/-- One row of the SQLite `messages` table (without the autoincrement id,
which the code never reads). -/
structure DbRecord where
  chatId : Int
  messageHash : String
  messageText : String
  userId : Int
  userName : String
  timestamp : Nat
deriving DecidableEq, Repr

/-- The per-chat dict from comparison key to history. -/
abbrev ChatMap := List (String × List Entry)

/-- `self.group_messages`: dict from chat id to per-chat dict. -/
abbrev GroupMap := List (Int × ChatMap)

/-- The bot's mutable state: the in-memory store and the backup table. -/
structure BotState where
  groupMessages : GroupMap
  db : List DbRecord
deriving DecidableEq, Repr

/-- Dict lookup on an association list. -/
def alLookup {α β : Type} [DecidableEq α] : List (α × β) → α → Option β
  | [], _ => none
  | (k, v) :: rest, a => if k = a then some v else alLookup rest a

/-- Dict assignment on an association list: replace in place if the key is
present (Python dicts keep the key's position), else append. -/
def alInsert {α β : Type} [DecidableEq α] : List (α × β) → α → β → List (α × β)
  | [], a, b => [(a, b)]
  | (k, v) :: rest, a, b =>
    if k = a then (a, b) :: rest else (k, v) :: alInsert rest a b

/-- The history stored for `(chat, key)`, empty if absent. -/
def getHistory (st : BotState) (chat : Int) (key : String) : List Entry :=
  (alLookup ((alLookup st.groupMessages chat).getD []) key).getD []

/-- Whether two rows collide on the `UNIQUE(chat_id, message_hash, timestamp)`
constraint of the `messages` table. -/
def sameTriple (a b : DbRecord) : Bool :=
  a.chatId = b.chatId && a.messageHash = b.messageHash && a.timestamp = b.timestamp

/-- The INSERT at bot.py:182-187 with its `sqlite3.IntegrityError` handler:
on a uniqueness collision the row is silently skipped. -/
def dbInsert (db : List DbRecord) (r : DbRecord) : List DbRecord :=
  if db.any (fun x => sameTriple x r) then db else db ++ [r]

/-- Whether some row with the given uniqueness triple is in the table. -/
def dbHasTriple (db : List DbRecord) (c : Int) (h : String) (t : Nat) : Bool :=
  db.any (fun r => r.chatId = c && r.messageHash = h && r.timestamp = t)

/-- The DELETE at bot.py:258-261:
`DELETE FROM messages WHERE timestamp < datetime("now", "-30 days")`.
Stored timestamps are Jakarta wall-clock renderings; `datetime("now", ...)`
renders the UTC clock, so the cutoff value is `nowUtc - thirtyDays`. -/
def pruneDb (db : List DbRecord) (nowUtc : Nat) : List DbRecord :=
  db.filter (fun r => decide ((nowUtc : Int) - (thirtyDays : Int) ≤ (r.timestamp : Int)))

/-- An inbound Telegram message event as `detect_duplicate` reads it:
chat id, raw text, `from_user.first_name` (possibly None) and
`from_user.id`. -/
structure Msg where
  chatId : Int
  rawText : String
  firstName : Option String
  userId : Int
deriving DecidableEq, Repr

/-- `update.message.from_user.first_name or str(update.message.from_user.id)`
(bot.py:165): Python `or` falls through on None and on the empty string. -/
def userDisplay (m : Msg) : String :=
  match m.firstName with
  | none => toString m.userId
  | some s => if s = "" then toString m.userId else s

/-- `format_time_display` (bot.py:138-149), modelled by the decimal rendering
of the stored second-precision timestamp (see the header comment). -/
def formatTimeDisplay (t : Nat) : String :=
  toString t

/-- The 30-character rule `"─" * 30` used in the report. -/
def dash30 : String :=
  String.mk (List.replicate 30 '─')

/-- The label line of the history block at index `idx` of a history of
length `len` (bot.py:235-240): index 0 is the initial sender, the last index
is the current sender, every other index shows its 1-based ordinal. -/
def labelString (idx len : Nat) : String :=
  if idx = 0 then "📌 PERTAMA KALI:\n"
  else if idx = len - 1 then "\n🔴 SAAT INI:\n"
  else "\n📋 KE-" ++ toString (idx + 1) ++ ":\n"

/-- The optional preview line (bot.py:245-247): shown only when the entry
carries an `original_text` field whose value differs from the triggering
text; truncated to the first 50 characters. -/
def previewPart (text : String) (e : Entry) : String :=
  match e.originalText with
  | none => ""
  | some o => if o ≠ text then "💬 " ++ o.take 50 ++ "...\n" else ""

/-- One history block of the report (bot.py:233-247). -/
def entryBlock (idx len : Nat) (text : String) (e : Entry) : String :=
  labelString idx len ++ "👤 " ++ e.user ++ "\n" ++ "⏰ " ++
    formatTimeDisplay e.time ++ " WIB\n" ++ previewPart text e

/-- The full duplicate report (bot.py:229-250). -/
def buildReport (text : String) (history : List Entry) : String :=
  "❌NOMOR SUDAH PERNAH JOIN❌\n" ++ "📝NOMOR : " ++ text ++ "\n" ++
    dash30 ++ "\n\n" ++
    String.join (history.enum.map (fun p => entryBlock p.1 history.length text p.2)) ++
    "\n" ++ dash30 ++ "\n📊 Total " ++ toString history.length ++ " kali dikirim"

/-- The rapid-repeat suppression test (bot.py:206-214): compares the display
name of the history's last element with the incoming display name, and the
parsed timestamp difference with 300 seconds. -/
def shouldSuppress (history : List Entry) (user : String) (timeNow : Nat) : Bool :=
  match history.getLast? with
  | none => false
  | some last => last.user = user && decide ((timeNow : Int) - (last.time : Int) < 300)

/-- The in-memory cap (bot.py:224-226): after an append, if the length
exceeds 10, keep only the last 10 (`history[-10:]`). -/
def trimHistory (h : List Entry) : List Entry :=
  if h.length > 10 then h.drop (h.length - 10) else h

/-- The backup row `detect_duplicate` inserts for a message handled at UTC
second `now` (bot.py:180-187). -/
def mkRecord (m : Msg) (now : Nat) : DbRecord :=
  { chatId := m.chatId
    messageHash := generateMessageHash (pyStrip m.rawText)
    messageText := pyStrip m.rawText
    userId := m.userId
    userName := userDisplay m
    timestamp := now + jakartaOffset }

/-- The body of `detect_duplicate` up to (but not including) the reply and
the pruning step: returns the state after the length gate, chat-dict
initialisation, backup insert, first/duplicate classification, suppression
test and capped append, together with the report to send (none on the
ignored, first and suppressed paths). -/
def handleCore (st : BotState) (m : Msg) (now : Nat) : BotState × Option String :=
  let text := pyStrip m.rawText
  let textLower := pyLower text
  let user := userDisplay m
  let timeNow := now + jakartaOffset
  if text.length < 3 then (st, none)
  else
    let gm1 := match alLookup st.groupMessages m.chatId with
      | some _ => st.groupMessages
      | none => alInsert st.groupMessages m.chatId []
    let db1 := dbInsert st.db (mkRecord m now)
    let cm := (alLookup gm1 m.chatId).getD []
    match alLookup cm textLower with
    | none =>
      ({ groupMessages := alInsert gm1 m.chatId
           (alInsert cm textLower [⟨user, timeNow, some text⟩])
         db := db1 }, none)
    | some history =>
      if shouldSuppress history user timeNow then
        ({ groupMessages := gm1, db := db1 }, none)
      else
        let h2 := trimHistory (history ++ [⟨user, timeNow, some text⟩])
        ({ groupMessages := alInsert gm1 m.chatId (alInsert cm textLower h2)
           db := db1 }, some (buildReport text h2))

/-- The whole `detect_duplicate` handler (bot.py:156-267).  Its body runs
inside a catch-all `try`/`except` that logs and returns, so a raised error
never escapes the handler.  `replyFails` injects a failure of the
`reply_text` call: the exception skips the pruning step, the outer handler
absorbs it, and no reply is delivered; every mutation made before the reply
(backup insert, history append) is already in place.  Pruning runs only
after a successful reply. -/
def detectDuplicate (st : BotState) (m : Msg) (now : Nat) (replyFails : Bool) :
    BotState × Option String :=
  let (s, r) := handleCore st m now
  match r with
  | none => (s, none)
  | some rep =>
    if replyFails then (s, none)
    else ({ groupMessages := s.groupMessages, db := pruneDb s.db now }, some rep)

/-- Stable insertion into a timestamp-ascending list (new row goes after
rows with an equal timestamp, matching replay order of an `ORDER BY
timestamp ASC` scan of rows in insertion order). -/
def insertByTs (r : DbRecord) : List DbRecord → List DbRecord
  | [] => [r]
  | x :: xs => if r.timestamp < x.timestamp then r :: x :: xs else x :: insertByTs r xs

/-- Sort the backup rows by ascending timestamp (the `ORDER BY timestamp
ASC` of `load_from_database`). -/
def sortByTs (records : List DbRecord) : List DbRecord :=
  records.foldl (fun acc r => insertByTs r acc) []

/-- Replay of one row by `load_from_database` (bot.py:95-105): the history
is keyed by the raw stored `message_text` (NOT lowercased), and the appended
entry carries only the sender name and timestamp. -/
def loadOne (gm : GroupMap) (r : DbRecord) : GroupMap :=
  let cm := (alLookup gm r.chatId).getD []
  let hist := (alLookup cm r.messageText).getD []
  alInsert gm r.chatId (alInsert cm r.messageText (hist ++ [⟨r.userName, r.timestamp, none⟩]))

/-- `load_from_database` (bot.py:85-109): replay all persisted rows in
ascending timestamp order into a fresh in-memory store. -/
def loadFromDatabase (records : List DbRecord) : GroupMap :=
  (sortByTs records).foldl loadOne []

/-- Run a sequence of message events (each with its UTC arrival second)
through the handler, collecting the replies. -/
def runMsgs (st : BotState) : List (Msg × Nat) → BotState × List (Option String)
  | [] => (st, [])
  | (m, t) :: rest =>
    let out := detectDuplicate st m t false
    let next := runMsgs out.1 rest
    (next.1, out.2 :: next.2)

/-! ### Helper lemmas about the dictionary model -/

theorem alLookup_alInsert_self {α β : Type} [DecidableEq α]
    (l : List (α × β)) (k : α) (v : β) :
    alLookup (alInsert l k v) k = some v := by
  induction l with
  | nil => simp [alInsert, alLookup]
  | cons hd tl ih =>
    by_cases h : hd.1 = k <;> simp [alInsert, alLookup, h, ih]

theorem all_alInsert {α β : Type} [DecidableEq α]
    (p : α × β → Bool) (l : List (α × β)) (k : α) (v : β)
    (hl : l.all p = true) (hv : p (k, v) = true) :
    (alInsert l k v).all p = true := by
  induction l with
  | nil => simp [alInsert, hv]
  | cons hd tl ih =>
    simp only [List.all_cons, Bool.and_eq_true] at hl
    by_cases h : hd.1 = k
    · simp [alInsert, h, hv, hl.2]
    · simp [alInsert, h, hl.1, ih hl.2]

theorem all_alLookup {α β : Type} [DecidableEq α]
    (p : α × β → Bool) (l : List (α × β)) (k : α) (v : β)
    (hl : l.all p = true) (hv : alLookup l k = some v) :
    p (k, v) = true := by
  induction l with
  | nil => simp [alLookup] at hv
  | cons hd tl ih =>
    simp only [List.all_cons, Bool.and_eq_true] at hl
    by_cases h : hd.1 = k
    · simp only [alLookup, h, if_pos] at hv
      have : hd = (k, v) := by
        cases hd; simp_all
      rw [← this]; exact hl.1
    · simp only [alLookup, h, if_neg, not_false_iff] at hv
      exact ih hl.2 hv

theorem dbHasTriple_dbInsert (db : List DbRecord) (r : DbRecord) :
    dbHasTriple (dbInsert db r) r.chatId r.messageHash r.timestamp = true := by
  unfold dbInsert dbHasTriple
  by_cases h : db.any (fun x => sameTriple x r) = true
  · rw [if_pos h]
    rw [List.any_eq_true] at h ⊢
    obtain ⟨x, hx, hs⟩ := h
    refine ⟨x, hx, ?_⟩
    simp only [sameTriple, Bool.and_eq_true, decide_eq_true_eq] at hs
    simp [hs.1.1, hs.1.2, hs.2]
  · rw [if_neg h]
    rw [List.any_eq_true]
    exact ⟨r, by simp, by simp⟩

theorem dbHasTriple_pruneDb (db : List DbRecord) (nowUtc : Nat)
    (c : Int) (hsh : String) (t : Nat)
    (hh : dbHasTriple db c hsh t = true)
    (ht : (nowUtc : Int) - (thirtyDays : Int) ≤ (t : Int)) :
    dbHasTriple (pruneDb db nowUtc) c hsh t = true := by
  unfold dbHasTriple at hh ⊢
  rw [List.any_eq_true] at hh ⊢
  obtain ⟨x, hx, hp⟩ := hh
  refine ⟨x, ?_, hp⟩
  have hts : x.timestamp = t := by
    simp only [Bool.and_eq_true, decide_eq_true_eq] at hp
    exact hp.2
  unfold pruneDb
  rw [List.mem_filter]
  exact ⟨hx, by rw [hts]; exact decide_eq_true ht⟩

/-- Under the length gate, every path of the handler body leaves the backup
table equal to the inserted table. -/
theorem handleCore_db (st : BotState) (m : Msg) (now : Nat)
    (hlen : 3 ≤ (pyStrip m.rawText).length) :
    (handleCore st m now).1.db = dbInsert st.db (mkRecord m now) := by
  unfold handleCore
  rw [if_neg (by omega)]
  cases halc : alLookup st.groupMessages m.chatId <;> simp only []
  all_goals split
  all_goals try split
  all_goals rfl

/-! ### C7: short messages -/

/-- C7: every inbound message whose text, after trimming, is shorter than 3
characters is ignored entirely: the handler returns with the state (memory
and backup table) unchanged and no reply. -/
theorem c7_short_messages_ignored (st : BotState) (m : Msg) (now : Nat) (rf : Bool)
    (h : (pyStrip m.rawText).length < 3) :
    detectDuplicate st m now rf = (st, none) := by
  simp only [detectDuplicate, handleCore, if_pos h]

theorem c7_witness :
    (pyStrip "  a ").length < 3 ∧
    detectDuplicate ⟨[], []⟩ ⟨1, "  a ", some "X", 4⟩ 0 false = (⟨[], []⟩, none) :=
  ⟨by decide, c7_short_messages_ignored ⟨[], []⟩ ⟨1, "  a ", some "X", 4⟩ 0 false (by decide)⟩

/-! ### C6: durable-backup pruning -/

/-- A fixed current UTC second for the pruning counterexample. -/
def c6Now : Nat := 10000000

/-- A backup row stamped 30 days and one hour before `c6Now` (its stored
timestamp is the Jakarta rendering of that instant). -/
def c6OldRec : DbRecord :=
  ⟨1, "h", "t", 1, "u", c6Now + jakartaOffset - thirtyDays - 3600⟩

/-- C6 counterexample: `c6OldRec` is more than 30 days older than the
current wall-clock instant (measured on the same clock that stamped it), yet
the pruning DELETE leaves it in the table, because the cutoff
`datetime("now", "-30 days")` is rendered from the UTC clock while stored
timestamps are Jakarta-local (UTC+7). -/
theorem c6_counterexample :
    ((c6Now + jakartaOffset : Nat) : Int) - (c6OldRec.timestamp : Int) > (thirtyDays : Int) ∧
    pruneDb [c6OldRec] c6Now = [c6OldRec] := by
  constructor
  · decide
  · decide

/-- C6 (amended): the pruning DELETE keeps exactly the rows whose stored
timestamp is at most 30 days plus 7 hours (the Jakarta-to-UTC offset) behind
the current wall-clock instant, deletes all older rows, and preserves the
order of the table; it touches nothing but the backup table. -/
theorem c6_prune_amended (db : List DbRecord) (nowUtc : Nat) :
    (∀ r : DbRecord, r ∈ pruneDb db nowUtc ↔
       r ∈ db ∧ ((nowUtc + jakartaOffset : Nat) : Int) - (r.timestamp : Int) ≤
         (thirtyDays : Int) + (jakartaOffset : Int)) ∧
    (pruneDb db nowUtc).Sublist db := by
  constructor
  · intro r
    unfold pruneDb
    rw [List.mem_filter, decide_eq_true_eq]
    simp only [jakartaOffset, thirtyDays]
    constructor
    · rintro ⟨h1, h2⟩
      refine ⟨h1, ?_⟩
      push_cast
      omega
    · rintro ⟨h1, h2⟩
      refine ⟨h1, ?_⟩
      push_cast at h2
      omega
  · exact List.filter_sublist _

/-! ### C5: the 10-entry cap -/

/-- Scenario for the cap: one first sighting and 11 further sightings of the
same normalized text in chat 9, all from distinct display names (so none is
suppressed), 1000 seconds apart. -/
def c5Msgs : List (Msg × Nat) :=
  (List.range 12).map
    (fun i => (⟨9, "promo99", some ("U" ++ toString (i + 1)), Int.ofNat (i + 1)⟩,
               (1000 * (i + 1) : Nat)))

/-- C5: an append followed by the cap keeps the newest `min (n+1) 10`
entries (a suffix, so the oldest are dropped from the front, and the result
is exactly 10 when the append would exceed 10); in the 12-sighting scenario
the stored history ends with exactly 10 entries, the original first sighting
(sender `U1`) is gone from the history the report renders, and the final
sighting still produced a report. -/
theorem c5_history_cap :
    (∀ (h : List Entry) (e : Entry),
       (trimHistory (h ++ [e])).length = min (h.length + 1) 10 ∧
       (trimHistory (h ++ [e])).IsSuffix (h ++ [e])) ∧
    ((getHistory (runMsgs ⟨[], []⟩ c5Msgs).1 9 (messageKey "promo99")).length = 10 ∧
     (∀ e ∈ getHistory (runMsgs ⟨[], []⟩ c5Msgs).1 9 (messageKey "promo99"), e.user ≠ "U1") ∧
     ((runMsgs ⟨[], []⟩ c5Msgs).2.getLastD none).isSome = true) := by
  constructor
  · intro h e
    unfold trimHistory
    constructor
    · split <;>
        simp only [List.length_drop, List.length_append, List.length_cons,
          List.length_nil] at * <;>
        omega
    · split
      · exact List.drop_suffix _ _
      · exact List.suffix_refl _
  · decide

/-! ### C10: rehydrated entries have no original text -/

/-- Whether every history entry anywhere in the store lacks the
`original_text` field. -/
def gmAllNone (gm : GroupMap) : Bool :=
  gm.all (fun c => c.2.all (fun kh => kh.2.all (fun e => e.originalText.isNone)))

theorem gmAllNone_loadOne (gm : GroupMap) (r : DbRecord)
    (h : gmAllNone gm = true) : gmAllNone (loadOne gm r) = true := by
  unfold gmAllNone at h ⊢
  unfold loadOne
  have hcm : ((alLookup gm r.chatId).getD []).all
      (fun kh => kh.2.all (fun e => e.originalText.isNone)) = true := by
    cases hl : alLookup gm r.chatId with
    | none => simp
    | some c =>
      simpa using all_alLookup _ gm r.chatId c h hl
  apply all_alInsert _ _ _ _ h
  apply all_alInsert _ _ _ _ hcm
  have hhist : (((alLookup ((alLookup gm r.chatId).getD []) r.messageText).getD []).all
      (fun e => e.originalText.isNone)) = true := by
    cases hl : alLookup ((alLookup gm r.chatId).getD []) r.messageText with
    | none => simp
    | some hs =>
      simpa using all_alLookup _ _ r.messageText hs hcm hl
  simp only [List.all_append, Bool.and_eq_true]
  exact ⟨hhist, by simp⟩

theorem gmAllNone_foldl (records : List DbRecord) (gm : GroupMap)
    (h : gmAllNone gm = true) :
    gmAllNone (records.foldl loadOne gm) = true := by
  induction records generalizing gm with
  | nil => exact h
  | cons r rest ih => exact ih _ (gmAllNone_loadOne gm r h)

/-- C10: every history entry produced by startup rehydration carries no
`original_text` field, and the report builder is a total function that, on
any such entry, renders the label, sender and time lines and omits the
preview line. -/
theorem c10_rehydrated_entries_no_preview :
    (∀ records : List DbRecord, gmAllNone (loadFromDatabase records) = true) ∧
    (∀ (idx len : Nat) (text user : String) (t : Nat),
       entryBlock idx len text ⟨user, t, none⟩ =
         labelString idx len ++ "👤 " ++ user ++ "\n" ++ "⏰ " ++
           formatTimeDisplay t ++ " WIB\n") := by
  constructor
  · intro records
    exact gmAllNone_foldl _ [] rfl
  · intro idx len text user t
    simp only [entryBlock, previewPart, String.append_empty]

/-! ### C1: rehydration keys and live keys -/

/-- A persisted row whose stored text contains an upper-case letter, as
written by a live run of the handler before a restart. -/
def c1Rec : DbRecord :=
  ⟨1, generateMessageHash "Hello", "Hello", 7, "Alice", 500000⟩

/-- C1 (refuting the claimed invariant, a slip in the code): rehydration
keys the replayed row by its raw stored text `"Hello"` while the live path
looks up the lowercased key `"hello"`, so after a restart a live message
whose text equals the persisted one up to case is classified as a first
sighting (no reply), and the store ends up with two distinct histories for
one normalized MessageKey. -/
theorem c1_rehydration_key_mismatch :
    messageKey "Hello" = messageKey "hello" ∧
    (detectDuplicate ⟨loadFromDatabase [c1Rec], [c1Rec]⟩
      ⟨1, "Hello", some "Bob", 8⟩ 600000 false).2 = none ∧
    getHistory (detectDuplicate ⟨loadFromDatabase [c1Rec], [c1Rec]⟩
      ⟨1, "Hello", some "Bob", 8⟩ 600000 false).1 1 "Hello" ≠ [] ∧
    getHistory (detectDuplicate ⟨loadFromDatabase [c1Rec], [c1Rec]⟩
      ⟨1, "Hello", some "Bob", 8⟩ 600000 false).1 1 "hello" ≠ [] := by
  refine ⟨by decide, by decide, by decide, by decide⟩

/-! ### Shared concrete scenario: one first sighting in chat 5 -/

/-- The state after a first sighting of "hello!!" by display name "A"
(numeric id 1) in chat 5 at UTC second 1000. -/
def demoFirst : BotState :=
  (detectDuplicate ⟨[], []⟩ ⟨5, "hello!!", some "A", 1⟩ 1000 false).1

/-- C2 counterexample: a second occurrence of the same MessageKey from a
*different* sender numeric id (2 vs 1) but an identical display name "A",
10 seconds later, produces no report and no append — the suppression test
compares display names, not numeric ids. -/
theorem c2_counterexample :
    (getHistory demoFirst 5 "hello!!").length = 1 ∧
    (detectDuplicate demoFirst ⟨5, "hello!!", some "A", 2⟩ 1010 false).2 = none ∧
    getHistory (detectDuplicate demoFirst ⟨5, "hello!!", some "A", 2⟩ 1010 false).1
      5 "hello!!" = getHistory demoFirst 5 "hello!!" := by
  refine ⟨by decide, by decide, by decide⟩

/-- C4 counterexample: a second occurrence from the *same* sender numeric id
(1) whose display name changed from "A" to "B", 10 seconds (< 300) later, is
NOT suppressed: the sighting is appended and a report is emitted, because
the suppression test compares display names, not sender identity. -/
theorem c4_counterexample :
    (getHistory demoFirst 5 "hello!!").getLast?.map Entry.time = some 26200 ∧
    ((1010 + jakartaOffset : Nat) : Int) - (26200 : Int) < 300 ∧
    ((detectDuplicate demoFirst ⟨5, "hello!!", some "B", 1⟩ 1010 false).2).isSome = true ∧
    (getHistory (detectDuplicate demoFirst ⟨5, "hello!!", some "B", 1⟩ 1010 false).1
      5 "hello!!").length = 2 := by
  refine ⟨by decide, by decide, by decide, by decide⟩

/-- C3 counterexample: when the reply-send step fails on a duplicate report,
the handler swallows the error and sends nothing, but the in-memory state
is NOT left unchanged: the appended history entry (and the backup row)
persist, so the event is not effectively dropped. -/
theorem c3_counterexample :
    (detectDuplicate demoFirst ⟨5, "hello!!", some "B", 2⟩ 1010 true).2 = none ∧
    (detectDuplicate demoFirst ⟨5, "hello!!", some "B", 2⟩ 1010 true).1.groupMessages ≠
      demoFirst.groupMessages := by
  refine ⟨by decide, by decide⟩

/-- C3 (amended): on a reply-send failure the handler emits no reply and
returns normally (so later events are still processed), but every in-memory
mutation made before the failing step persists: the store after a failed
reply equals the store after a successful one. -/
theorem c3_error_drops_reply_not_state (st : BotState) (m : Msg) (now : Nat) :
    (detectDuplicate st m now true).2 = none ∧
    (detectDuplicate st m now true).1.groupMessages =
      (detectDuplicate st m now false).1.groupMessages := by
  unfold detectDuplicate
  rcases handleCore st m now with ⟨s, r⟩
  cases r with
  | none => exact ⟨rfl, rfl⟩
  | some rep => exact ⟨rfl, rfl⟩

/-! ### Branch-computation lemmas for the handler -/

theorem getHistory_some (st : BotState) (chat : Int) (key : String)
    (h : getHistory st chat key ≠ []) :
    ∃ cm, alLookup st.groupMessages chat = some cm ∧
      alLookup cm key = some (getHistory st chat key) := by
  unfold getHistory at h ⊢
  cases hg : alLookup st.groupMessages chat with
  | none => rw [hg] at h; simp [alLookup] at h
  | some cm =>
    refine ⟨cm, rfl, ?_⟩
    rw [hg] at h
    simp only [Option.getD_some] at h
    cases hk : alLookup cm key with
    | none => rw [hk] at h; simp at h
    | some hist => simp only [Option.getD_some]; rw [hk]; simp

/-- Reduction of the handler body on the duplicate path. -/
theorem handleCore_dup (st : BotState) (m : Msg) (now : Nat)
    (cm : ChatMap) (hist : List Entry)
    (hlen : 3 ≤ (pyStrip m.rawText).length)
    (hg : alLookup st.groupMessages m.chatId = some cm)
    (hk : alLookup cm (pyLower (pyStrip m.rawText)) = some hist) :
    handleCore st m now =
      if shouldSuppress hist (userDisplay m) (now + jakartaOffset) then
        ({ groupMessages := st.groupMessages, db := dbInsert st.db (mkRecord m now) }, none)
      else
        ({ groupMessages := alInsert st.groupMessages m.chatId
             (alInsert cm (pyLower (pyStrip m.rawText))
               (trimHistory (hist ++
                 [⟨userDisplay m, now + jakartaOffset, some (pyStrip m.rawText)⟩])))
           db := dbInsert st.db (mkRecord m now) },
         some (buildReport (pyStrip m.rawText)
           (trimHistory (hist ++
             [⟨userDisplay m, now + jakartaOffset, some (pyStrip m.rawText)⟩])))) := by
  unfold handleCore
  rw [if_neg (by omega)]
  simp only [hg, Option.getD_some, hk]

/-- Reduction of the handler body on the first-sighting path (chat already
known, key unseen). -/
theorem handleCore_first (st : BotState) (m : Msg) (now : Nat) (cm : ChatMap)
    (hlen : 3 ≤ (pyStrip m.rawText).length)
    (hg : alLookup st.groupMessages m.chatId = some cm)
    (hk : alLookup cm (pyLower (pyStrip m.rawText)) = none) :
    handleCore st m now =
      ({ groupMessages := alInsert st.groupMessages m.chatId
           (alInsert cm (pyLower (pyStrip m.rawText))
             [⟨userDisplay m, now + jakartaOffset, some (pyStrip m.rawText)⟩])
         db := dbInsert st.db (mkRecord m now) }, none) := by
  unfold handleCore
  rw [if_neg (by omega)]
  simp only [hg, Option.getD_some, hk]

/-- Reduction of the handler body on the first-sighting path in a chat not
seen before. -/
theorem handleCore_fresh (st : BotState) (m : Msg) (now : Nat)
    (hlen : 3 ≤ (pyStrip m.rawText).length)
    (hg : alLookup st.groupMessages m.chatId = none) :
    handleCore st m now =
      ({ groupMessages := alInsert (alInsert st.groupMessages m.chatId []) m.chatId
           [(pyLower (pyStrip m.rawText),
             [⟨userDisplay m, now + jakartaOffset, some (pyStrip m.rawText)⟩])]
         db := dbInsert st.db (mkRecord m now) }, none) := by
  unfold handleCore
  rw [if_neg (by omega)]
  simp only [hg, alLookup_alInsert_self, Option.getD_some]
  rfl

theorem detectDuplicate_of_none (st : BotState) (m : Msg) (now : Nat) (rf : Bool)
    (s : BotState) (h : handleCore st m now = (s, none)) :
    detectDuplicate st m now rf = (s, none) := by
  unfold detectDuplicate
  rw [h]

theorem detectDuplicate_of_some (st : BotState) (m : Msg) (now : Nat)
    (s : BotState) (rep : String) (h : handleCore st m now = (s, some rep)) :
    detectDuplicate st m now false =
      ({ groupMessages := s.groupMessages, db := pruneDb s.db now }, some rep) := by
  unfold detectDuplicate
  rw [h]
  rfl

/-! ### C2: second occurrence from a different sender -/

/-- C2 (amended): a second occurrence of a MessageKey whose sender *display
name* differs from the sole existing sighting's display name always produces
a report (regardless of elapsed time and of sender numeric ids): the new
sighting is appended and the reply renders the two entries, labelling index
0 as the initial sender and index 1 as the current sender.  The comparison
uses display names, not sender numeric ids. -/
theorem c2_report_on_different_display_name (st : BotState) (m : Msg) (now : Nat)
    (e : Entry)
    (hlen : 3 ≤ (pyStrip m.rawText).length)
    (hhist : getHistory st m.chatId (messageKey m.rawText) = [e])
    (hname : e.user ≠ userDisplay m) :
    (detectDuplicate st m now false).2 =
      some (buildReport (pyStrip m.rawText)
        [e, ⟨userDisplay m, now + jakartaOffset, some (pyStrip m.rawText)⟩]) ∧
    getHistory (detectDuplicate st m now false).1 m.chatId (messageKey m.rawText) =
      [e, ⟨userDisplay m, now + jakartaOffset, some (pyStrip m.rawText)⟩] ∧
    labelString 0 2 = "📌 PERTAMA KALI:\n" ∧
    labelString 1 2 = "\n🔴 SAAT INI:\n" := by
  have hne : getHistory st m.chatId (messageKey m.rawText) ≠ [] := by
    rw [hhist]; simp
  obtain ⟨cm, hg, hk⟩ := getHistory_some st m.chatId (messageKey m.rawText) hne
  rw [hhist] at hk
  have hk' : alLookup cm (pyLower (pyStrip m.rawText)) = some [e] := hk
  have hsup : shouldSuppress [e] (userDisplay m) (now + jakartaOffset) = false := by
    simp [shouldSuppress, hname]
  have htrim : trimHistory ([e] ++
      [⟨userDisplay m, now + jakartaOffset, some (pyStrip m.rawText)⟩]) =
      [e, ⟨userDisplay m, now + jakartaOffset, some (pyStrip m.rawText)⟩] := by
    simp [trimHistory]
  have hcore := handleCore_dup st m now cm [e] hlen hg hk'
  rw [if_neg (by simp [hsup]), htrim] at hcore
  have hd := detectDuplicate_of_some st m now _ _ hcore
  rw [hd]
  refine ⟨rfl, ?_, rfl, rfl⟩
  have hkey : messageKey m.rawText = pyLower (pyStrip m.rawText) := rfl
  unfold getHistory
  rw [hkey]
  simp [alLookup_alInsert_self]

/-- Concrete store for the C2 and C4 witnesses: one sighting of
"hello!!" by display name "A" at stored second 26200 in chat 5. -/
def c2WitnessState : BotState :=
  ⟨[(5, [("hello!!", [⟨"A", 26200, some "hello!!"⟩])])], []⟩

theorem c2_report_witness :
    (detectDuplicate c2WitnessState ⟨5, "hello!!", some "B", 2⟩ 1010 false).2 =
      some (buildReport (pyStrip "hello!!")
        [⟨"A", 26200, some "hello!!"⟩,
         ⟨userDisplay ⟨5, "hello!!", some "B", 2⟩, 1010 + jakartaOffset,
          some (pyStrip "hello!!")⟩]) ∧
    getHistory (detectDuplicate c2WitnessState ⟨5, "hello!!", some "B", 2⟩ 1010 false).1
      5 (messageKey "hello!!") =
      [⟨"A", 26200, some "hello!!"⟩,
       ⟨userDisplay ⟨5, "hello!!", some "B", 2⟩, 1010 + jakartaOffset,
        some (pyStrip "hello!!")⟩] ∧
    labelString 0 2 = "📌 PERTAMA KALI:\n" ∧
    labelString 1 2 = "\n🔴 SAAT INI:\n" :=
  c2_report_on_different_display_name c2WitnessState ⟨5, "hello!!", some "B", 2⟩ 1010
    ⟨"A", 26200, some "hello!!"⟩ (by decide) (by decide) (by decide)

/-! ### C4: the same-sender 300-second suppression window -/

/-- C4 (amended): for a repeated sighting whose sender *display name* equals
that of the History's last element (the suppression test looks only at the
last element, and at names, not numeric ids): under 300 seconds of elapsed
time the sighting is suppressed (no append, no report); at 300 seconds or
more it is appended (then capped) and a report is emitted. -/
theorem c4_suppression_window_same_display_name (st : BotState) (m : Msg) (now : Nat)
    (last : Entry)
    (hlen : 3 ≤ (pyStrip m.rawText).length)
    (hlast : (getHistory st m.chatId (messageKey m.rawText)).getLast? = some last)
    (hsame : last.user = userDisplay m) :
    (((now + jakartaOffset : Nat) : Int) - (last.time : Int) < 300 →
       (detectDuplicate st m now false).2 = none ∧
       getHistory (detectDuplicate st m now false).1 m.chatId (messageKey m.rawText) =
         getHistory st m.chatId (messageKey m.rawText)) ∧
    (300 ≤ ((now + jakartaOffset : Nat) : Int) - (last.time : Int) →
       ((detectDuplicate st m now false).2).isSome = true ∧
       getHistory (detectDuplicate st m now false).1 m.chatId (messageKey m.rawText) =
         trimHistory (getHistory st m.chatId (messageKey m.rawText) ++
           [⟨userDisplay m, now + jakartaOffset, some (pyStrip m.rawText)⟩])) := by
  have hne : getHistory st m.chatId (messageKey m.rawText) ≠ [] := by
    intro he; rw [he] at hlast; simp at hlast
  obtain ⟨cm, hg, hk⟩ := getHistory_some st m.chatId (messageKey m.rawText) hne
  have hk' : alLookup cm (pyLower (pyStrip m.rawText)) =
      some (getHistory st m.chatId (messageKey m.rawText)) := hk
  have hcore := handleCore_dup st m now cm _ hlen hg hk'
  constructor
  · intro htime
    have hsup : shouldSuppress (getHistory st m.chatId (messageKey m.rawText))
        (userDisplay m) (now + jakartaOffset) = true := by
      simp only [shouldSuppress, hlast]
      simp [hsame]
      omega
    rw [if_pos hsup] at hcore
    have hd := detectDuplicate_of_none st m now false _ hcore
    rw [hd]
    exact ⟨rfl, rfl⟩
  · intro htime
    have hsup : shouldSuppress (getHistory st m.chatId (messageKey m.rawText))
        (userDisplay m) (now + jakartaOffset) = false := by
      simp only [shouldSuppress, hlast]
      simp only [hsame, decide_eq_true_eq, Bool.and_eq_false_iff,
        decide_eq_false_iff_not]
      right
      omega
    rw [if_neg (by simp [hsup])] at hcore
    have hd := detectDuplicate_of_some st m now _ _ hcore
    rw [hd]
    refine ⟨rfl, ?_⟩
    simp [getHistory, messageKey, alLookup_alInsert_self]

theorem c4_suppression_witness :
    (detectDuplicate c2WitnessState ⟨5, "hello!!", some "A", 9⟩ 1010 false).2 = none ∧
    getHistory (detectDuplicate c2WitnessState ⟨5, "hello!!", some "A", 9⟩ 1010 false).1
      5 (messageKey "hello!!") =
      getHistory c2WitnessState 5 (messageKey "hello!!") :=
  (c4_suppression_window_same_display_name c2WitnessState ⟨5, "hello!!", some "A", 9⟩
    1010 ⟨"A", 26200, some "hello!!"⟩ (by decide) (by decide) (by decide)).1 (by decide)

theorem detectDuplicate_state_of_none (st : BotState) (m : Msg) (now : Nat) (rf : Bool)
    (s : BotState) (h : handleCore st m now = (s, none)) :
    (detectDuplicate st m now rf).1 = s := by
  unfold detectDuplicate
  rw [h]

theorem detectDuplicate_reply_of_none (st : BotState) (m : Msg) (now : Nat) (rf : Bool)
    (s : BotState) (h : handleCore st m now = (s, none)) :
    (detectDuplicate st m now rf).2 = none := by
  unfold detectDuplicate
  rw [h]

theorem detectDuplicate_reply_of_some (st : BotState) (m : Msg) (now : Nat)
    (s : BotState) (rep : String) (h : handleCore st m now = (s, some rep)) :
    (detectDuplicate st m now false).2 = some rep := by
  unfold detectDuplicate
  rw [h]
  rfl

/-! ### C8: normalization determines the MessageKey -/

/-- C8: two texts map to the same MessageKey exactly when they are equal
after stripping leading/trailing whitespace and lowercasing, and the handler
then uses one shared History: in a fresh chat, a second message whose key
equals the first's is reported as a duplicate, while a second message with a
different key (e.g. differing in internal whitespace) starts its own History
and gets no report. -/
theorem c8_same_key_same_history (st : BotState) (m1 m2 : Msg) (now1 now2 : Nat)
    (hchat : m2.chatId = m1.chatId)
    (hlen1 : 3 ≤ (pyStrip m1.rawText).length)
    (hlen2 : 3 ≤ (pyStrip m2.rawText).length)
    (hfresh : alLookup st.groupMessages m1.chatId = none)
    (hname : userDisplay m2 ≠ userDisplay m1) :
    (messageKey m1.rawText = messageKey m2.rawText ↔
       pyLower (pyStrip m1.rawText) = pyLower (pyStrip m2.rawText)) ∧
    (messageKey m1.rawText = messageKey m2.rawText →
       ((detectDuplicate (detectDuplicate st m1 now1 false).1 m2 now2 false).2).isSome =
         true) ∧
    (messageKey m1.rawText ≠ messageKey m2.rawText →
       (detectDuplicate (detectDuplicate st m1 now1 false).1 m2 now2 false).2 = none) := by
  have hcore1 := handleCore_fresh st m1 now1 hlen1 hfresh
  rw [detectDuplicate_state_of_none st m1 now1 false _ hcore1]
  have hg2 : alLookup (alInsert (alInsert st.groupMessages m1.chatId []) m1.chatId
      [(pyLower (pyStrip m1.rawText),
        [⟨userDisplay m1, now1 + jakartaOffset, some (pyStrip m1.rawText)⟩])])
      m2.chatId =
      some [(pyLower (pyStrip m1.rawText),
        [⟨userDisplay m1, now1 + jakartaOffset, some (pyStrip m1.rawText)⟩])] := by
    rw [hchat]
    exact alLookup_alInsert_self _ _ _
  refine ⟨Iff.rfl, ?_, ?_⟩
  · intro heq
    have heq' : pyLower (pyStrip m1.rawText) = pyLower (pyStrip m2.rawText) := heq
    have hk2 : alLookup ([(pyLower (pyStrip m1.rawText),
        [⟨userDisplay m1, now1 + jakartaOffset, some (pyStrip m1.rawText)⟩])] : ChatMap)
        (pyLower (pyStrip m2.rawText)) =
        some [⟨userDisplay m1, now1 + jakartaOffset, some (pyStrip m1.rawText)⟩] := by
      simp [alLookup, heq']
    have hcore2 := handleCore_dup
      ⟨alInsert (alInsert st.groupMessages m1.chatId []) m1.chatId
         [(pyLower (pyStrip m1.rawText),
           [⟨userDisplay m1, now1 + jakartaOffset, some (pyStrip m1.rawText)⟩])],
       dbInsert st.db (mkRecord m1 now1)⟩
      m2 now2 _ _ hlen2 hg2 hk2
    have hsup : shouldSuppress
        [⟨userDisplay m1, now1 + jakartaOffset, some (pyStrip m1.rawText)⟩]
        (userDisplay m2) (now2 + jakartaOffset) = false := by
      simp [shouldSuppress, Ne.symm hname]
    rw [if_neg (by simp [hsup])] at hcore2
    rw [detectDuplicate_reply_of_some _ m2 now2 _ _ hcore2]
    rfl
  · intro hne2
    have hne2' : pyLower (pyStrip m1.rawText) ≠ pyLower (pyStrip m2.rawText) := hne2
    have hk2 : alLookup ([(pyLower (pyStrip m1.rawText),
        [⟨userDisplay m1, now1 + jakartaOffset, some (pyStrip m1.rawText)⟩])] : ChatMap)
        (pyLower (pyStrip m2.rawText)) = none := by
      simp [alLookup, hne2']
    have hcore2 := handleCore_first
      ⟨alInsert (alInsert st.groupMessages m1.chatId []) m1.chatId
         [(pyLower (pyStrip m1.rawText),
           [⟨userDisplay m1, now1 + jakartaOffset, some (pyStrip m1.rawText)⟩])],
       dbInsert st.db (mkRecord m1 now1)⟩
      m2 now2 _ hlen2 hg2 hk2
    rw [detectDuplicate_reply_of_none _ m2 now2 false _ hcore2]

theorem c8_same_key_witness :
    (messageKey "Hello World" = messageKey " hello world " ↔
       pyLower (pyStrip "Hello World") = pyLower (pyStrip " hello world ")) ∧
    ((detectDuplicate
        (detectDuplicate ⟨[], []⟩ ⟨100, "Hello World", some "Alice", 1⟩ 1000 false).1
        ⟨100, " hello world ", some "Bob", 2⟩ 1010 false).2).isSome = true :=
  have h := c8_same_key_same_history ⟨[], []⟩ ⟨100, "Hello World", some "Alice", 1⟩
    ⟨100, " hello world ", some "Bob", 2⟩ 1000 1010
    (by decide) (by decide) (by decide) (by decide) (by decide)
  ⟨h.1, h.2.1 (by decide)⟩

/-! ### C9: the backup insert precedes the in-memory checks -/

/-- C9: for every handled message of trimmed length at least 3, on every
path of the handler — first sighting, suppressed repeat, reported duplicate,
and even a failed reply — the backup table ends up holding a row with this
event's uniqueness triple (chat id, normalized-text hash, stamped time):
the insert happens before the first/duplicate and suppression checks, so
suppressed and first sightings are persisted although they produce no reply. -/
theorem c9_backup_written_before_checks (st : BotState) (m : Msg) (now : Nat) (rf : Bool)
    (hlen : 3 ≤ (pyStrip m.rawText).length) :
    dbHasTriple (detectDuplicate st m now rf).1.db m.chatId
      (generateMessageHash (pyStrip m.rawText)) (now + jakartaOffset) = true := by
  have hdb := handleCore_db st m now hlen
  have hins := dbHasTriple_dbInsert st.db (mkRecord m now)
  unfold detectDuplicate
  rcases hc : handleCore st m now with ⟨s, r⟩
  rw [hc] at hdb
  cases r with
  | none =>
    simp only []
    rw [hdb]
    exact hins
  | some rep =>
    cases rf with
    | false =>
      simp only [Bool.false_eq_true, if_false]
      apply dbHasTriple_pruneDb
      · rw [hdb]
        exact hins
      · push_cast
        omega
    | true =>
      simp only [if_true]
      rw [hdb]
      exact hins

theorem c9_backup_witness :
    3 ≤ (pyStrip "hello!!").length ∧
    dbHasTriple (detectDuplicate demoFirst ⟨5, "hello!!", some "A", 2⟩ 1010 false).1.db 5
      (generateMessageHash (pyStrip "hello!!")) (1010 + jakartaOffset) = true :=
  ⟨by decide,
   c9_backup_written_before_checks demoFirst ⟨5, "hello!!", some "A", 2⟩ 1010 false
     (by decide)⟩
